import Mathlib

/-!
Verification of the smp-rs protocol client against its specification.

The development shallowly embeds the Rust sources:
  * `src/mcumgr-smp/src/setting_management.rs` (settings group encoders and
    the untagged result enums), and
  * `src/smp-tool/src/main.rs` (the firmware image upload loop of the
    `App Flash` subcommand and the `Setting WriteInt` arm).

Types that the sources reference but whose defining file is not part of the
repository snapshot (the frame envelope `SmpFrame`, the image uploader
`ImageWriter` and its request/response payloads) are modelled from the
specification; each such definition says so in its doc comment.

Rust `Vec<u8>` is modelled as `List Nat` (each element a byte value),
`u8`/`usize` as `Nat`, and `i32` as `Int` with explicit range conditions
where they matter.
-/

namespace Smp

set_option maxRecDepth 100000

/-- Modelled from the spec: the envelope operation field, one of
ReadRequest, ReadResponse, WriteRequest, WriteResponse (spec §3). The
enum itself lives in the crate root, which is not part of the snapshot. -/
inductive OpCode where
  | ReadRequest
  | ReadResponse
  | WriteRequest
  | WriteResponse
deriving DecidableEq, Repr

/-- Modelled from the spec: the functional command group of a frame
(spec §3: Os, Application/Image, SettingManagement, Shell). The enum
lives in the crate root, which is not part of the snapshot. -/
inductive Group where
  | Os
  | ApplicationManagement
  | SettingManagement
  | Shell
deriving DecidableEq, Repr

/-- Modelled from the spec: the frame envelope, generic over a payload
type (spec §3: operation, sequence, group, command_id, payload). The
struct lives in `smp.rs`, which is not part of the snapshot; `main.rs`
accesses the payload as `.data`, so the payload field is called `data`. -/
structure SmpFrame (T : Type) where
  operation : OpCode
  sequence : Nat
  group : Group
  command_id : Nat
  data : T
deriving DecidableEq, Repr

/-- Modelled from the spec: `SmpFrame::new(operation, sequence, group,
command_id, payload)` simply populates the envelope fields in that order,
as used by every encoder in `setting_management.rs`. -/
def SmpFrame.new {T : Type} (operation : OpCode) (sequence : Nat)
    (group : Group) (command_id : Nat) (data : T) : SmpFrame T :=
  { operation := operation, sequence := sequence, group := group,
    command_id := command_id, data := data }

/-- `ReadSettingRequest` (setting_management.rs lines 8-11): the payload
of a settings read, a single text field `name`. -/
structure ReadSettingRequest where
  name : String
deriving DecidableEq, Repr

/-- `read_setting` (setting_management.rs lines 13-17). -/
def read_setting (sequence : Nat) (name : String) :
    SmpFrame ReadSettingRequest :=
  SmpFrame.new OpCode.ReadRequest sequence Group.SettingManagement 0
    { name := name }

/-- `ReadSettingResult` (setting_management.rs lines 19-29): untagged
two-shape result of a settings read. -/
inductive ReadSettingResult where
  | Ok (val : List Nat)
  | Err (rc : Int)
deriving DecidableEq, Repr

/-- `WriteSettingRequest` (setting_management.rs lines 40-45). -/
structure WriteSettingRequest where
  name : String
  val : List Nat
deriving DecidableEq, Repr

/-- `write_setting` (setting_management.rs lines 47-51). -/
def write_setting (sequence : Nat) (name : String) (val : List Nat) :
    SmpFrame WriteSettingRequest :=
  SmpFrame.new OpCode.WriteRequest sequence Group.SettingManagement 0
    { name := name, val := val }

/-- `WriteSettingResult` (setting_management.rs lines 53-58): untagged
two-shape result of a settings write; the success variant has no fields. -/
inductive WriteSettingResult where
  | Ok
  | Err (rc : Int)
deriving DecidableEq, Repr

/-- `SaveSettingRequest` (setting_management.rs lines 69-70): empty payload. -/
structure SaveSettingRequest where
deriving DecidableEq, Repr

/-- `save_setting` (setting_management.rs lines 72-76). -/
def save_setting (sequence : Nat) : SmpFrame SaveSettingRequest :=
  SmpFrame.new OpCode.WriteRequest sequence Group.SettingManagement 3 {}

/-- `SaveSettingResult` (setting_management.rs lines 78-83): untagged
two-shape result of a settings save; the success variant has no fields. -/
inductive SaveSettingResult where
  | Ok
  | Err (rc : Int)
deriving DecidableEq, Repr

/-!
## Decoding of the untagged setting results

The result enums above carry `#[derive(Deserialize)]` with
`#[serde(untagged)]`. Their decoding behaviour is fixed by the serde
library (an external dependency, not repository code):

  * an untagged enum is deserialized by trying its variants in declaration
    order and returning the first that deserializes successfully;
  * a derived struct (or struct variant) deserialized from a map reads its
    declared fields, rejects a duplicate occurrence of a declared field,
    rejects a missing declared field, and silently ignores unknown fields
    (there is no `deny_unknown_fields` attribute in this source);
  * `i32` rejects integers outside the signed 32-bit range;
  * a `serde_bytes` `Vec<u8>` field requires a byte-string value.

The definitions below embed exactly these rules for the three setting
result enums, over a small model of the decoded CBOR payload map.
-/

/-- A structured binary payload value (spec §4.1: integers, UTF-8 text,
opaque byte strings; booleans occur in image responses). -/
inductive CborVal where
  | int (i : Int)
  | bytes (bs : List Nat)
  | text (s : String)
  | bool (b : Bool)
deriving DecidableEq, Repr

/-- A decoded payload map: the sequence of key/value pairs of the compact
binary map encoding (spec §4.1), in encounter order. -/
abbrev CborMap := List (String × CborVal)

/-- The values bound to field `k` in a payload map, in encounter order
(serde's map visitor sees every entry; declared fields must occur exactly
once, unknown fields are ignored). -/
def fieldValues (m : CborMap) (k : String) : List CborVal :=
  (m.filter (fun p => p.1 == k)).map Prod.snd

/-- Deserialization of a declared `rc: i32` field: present exactly once,
an integer, within the signed 32-bit range. -/
def decodeSettingErr (m : CborMap) : Option Int :=
  match fieldValues m "rc" with
  | [CborVal.int i] => if -(2 ^ 31) ≤ i ∧ i < 2 ^ 31 then some i else none
  | _ => none

/-- Deserialization of `ReadSettingResult::Ok { val }`: the declared
`serde_bytes` field `val` must be present exactly once and be a byte
string; unknown fields are ignored. -/
def decodeReadSettingOk (m : CborMap) : Option (List Nat) :=
  match fieldValues m "val" with
  | [CborVal.bytes bs] => some bs
  | _ => none

/-- Deserialization of an empty struct variant such as
`WriteSettingResult::Ok {}`: a struct with no declared fields accepts any
map, ignoring every (unknown) field — serde's default behaviour. -/
def decodeEmptyOk (_m : CborMap) : Option Unit :=
  some ()

/-- Untagged decode of `ReadSettingResult` (setting_management.rs lines
19-29): try `Ok { val }` first, then `Err { rc }`. -/
def decodeReadSettingResult (m : CborMap) : Option ReadSettingResult :=
  match decodeReadSettingOk m with
  | some val => some (ReadSettingResult.Ok val)
  | none =>
    match decodeSettingErr m with
    | some rc => some (ReadSettingResult.Err rc)
    | none => none

/-- Untagged decode of `WriteSettingResult` (setting_management.rs lines
53-58): try `Ok {}` first, then `Err { rc }`. -/
def decodeWriteSettingResult (m : CborMap) : Option WriteSettingResult :=
  match decodeEmptyOk m with
  | some _ => some WriteSettingResult.Ok
  | none =>
    match decodeSettingErr m with
    | some rc => some (WriteSettingResult.Err rc)
    | none => none

/-- Untagged decode of `SaveSettingResult` (setting_management.rs lines
78-83): try `Ok {}` first, then `Err { rc }`. -/
def decodeSaveSettingResult (m : CborMap) : Option SaveSettingResult :=
  match decodeEmptyOk m with
  | some _ => some SaveSettingResult.Ok
  | none =>
    match decodeSettingErr m with
    | some rc => some (SaveSettingResult.Err rc)
    | none => none

/-!
## The firmware image upload loop

`main.rs` (ApplicationCmd::Flash arm, lines 247-300) drives a chunked
upload through an `ImageWriter` from `application_management.rs`, a file
that is not part of the repository snapshot; the writer and its payloads
are modelled from the specification (§3 Image Upload State, §4.2 table
row WriteChunk, §4.5).
-/

/-- Modelled from the spec: the image uploader state (spec §3), created by
`ImageWriter::new(slot, len, hash, upgrade)` as called at main.rs lines
261-266; `offset` starts at 0 (spec §4.5 step 1) and is reassigned by the
loop after each confirmed chunk (main.rs line 282). -/
structure ImageWriter where
  slot : Option Nat
  total_length : Nat
  image_hash : Option (List Nat)
  upgrade_only : Bool
  offset : Nat
deriving DecidableEq, Repr

/-- Modelled from the spec: `ImageWriter::new` populates the upload state
with offset 0 (spec §4.5 step 1). -/
def ImageWriter.new (slot : Option Nat) (total_length : Nat)
    (image_hash : Option (List Nat)) (upgrade_only : Bool) : ImageWriter :=
  { slot := slot, total_length := total_length, image_hash := image_hash,
    upgrade_only := upgrade_only, offset := 0 }

/-- Modelled from the spec: the WriteChunk request payload (spec §4.2:
slot?, total_length? (first chunk only), image_hash? (first chunk only),
upgrade_only, data chunk, requested offset). The envelope around this
payload is not modelled; no claim concerns it. -/
structure ImageWriteRequest where
  slot : Option Nat
  len : Option Nat
  sha : Option (List Nat)
  upgrade_only : Bool
  data : List Nat
  off : Nat
deriving DecidableEq, Repr

/-- Modelled from the spec: `ImageWriter::write_chunk` builds the
WriteChunk request for the given data chunk at the writer's current
offset; `slot`, `total_length` and `image_hash` are included only while
offset == 0 (spec §4.5 step 2b). -/
def ImageWriter.write_chunk (w : ImageWriter) (chunk : List Nat) :
    ImageWriteRequest :=
  { slot := if w.offset = 0 then w.slot else none,
    len := if w.offset = 0 then some w.total_length else none,
    sha := if w.offset = 0 then w.image_hash else none,
    upgrade_only := w.upgrade_only,
    data := chunk,
    off := w.offset }

/-- Modelled from the spec: success payload of a WriteChunk response —
the device-reported offset and the optional hash-match flag (spec §4.2);
main.rs reads them as `payload.off` (line 281) and `payload.match_`
(line 283). -/
structure WriteImageChunkOk where
  off : Nat
  match_ : Option Bool
deriving DecidableEq, Repr

/-- Modelled from the spec: the error shape of an Application-group
response — a signed return code and an optional reason string (spec §4.2,
§7). -/
structure ImageError where
  rc : Int
  rsn : Option String
deriving DecidableEq, Repr

/-- Modelled from the spec: the two-shape result of a WriteChunk exchange,
matched at main.rs lines 279-288. -/
inductive WriteImageChunkResult where
  | Ok (payload : WriteImageChunkOk)
  | Err (e : ImageError)
deriving DecidableEq, Repr

/-- Rust slice indexing `firmware[start..stop]` (main.rs line 273):
defined when start ≤ stop ≤ length; an out-of-bounds range panics,
modelled as `none`. -/
def sliceRange (fw : List Nat) (start stop : Nat) : Option (List Nat) :=
  if start ≤ stop ∧ stop ≤ fw.length then
    some ((fw.drop start).take (stop - start))
  else none

/-- How a run of the upload loop against a scripted list of device
responses ends: normal termination (`done`, carrying the final offset and
verified flag), a device-reported error (`deviceError`), an out-of-bounds
chunk slice (`fault`, the panic case), or exhaustion of the scripted
responses while a request is outstanding (`starved`; the real program
would still be waiting on the transport). -/
inductive FlashOutcome where
  | done (offset : Nat) (verified : Option Bool)
  | deviceError (rc : Int) (rsn : Option String)
  | fault
  | starved (offset : Nat) (verified : Option Bool)
deriving DecidableEq, Repr

/-- `true` exactly on the out-of-bounds slice (panic) outcome. -/
def FlashOutcome.isFault : FlashOutcome → Bool
  | FlashOutcome.fault => true
  | _ => false

/-- The image upload loop of main.rs (lines 268-291), embedded as a
function of the scripted device responses. Per iteration, while
offset < firmware.len(): slice `chunk = &firmware[offset..min(firmware.len(),
offset + chunk_size)]`, send `updater.write_chunk(chunk)`, and on an Ok
response set `offset = payload.off`, `updater.offset = offset`,
`verified = payload.match_`; on an Err response abort with the error.
Returns the requests sent, in order, and the outcome.
The recursion is on the scripted response list; the three response cases
each repeat the loop-body prefix that runs before the response arrives
(guard check, chunk slice, request send), exactly as in the source. -/
def flashLoop (fw : List Nat) (chunkSize : Nat) (w : ImageWriter)
    (offset : Nat) (verified : Option Bool) :
    List WriteImageChunkResult → List ImageWriteRequest × FlashOutcome
  | [] =>
    if offset < fw.length then
      match sliceRange fw offset (min fw.length (offset + chunkSize)) with
      | none => ([], FlashOutcome.fault)
      | some chunk => ([w.write_chunk chunk], FlashOutcome.starved offset verified)
    else ([], FlashOutcome.done offset verified)
  | WriteImageChunkResult.Ok p :: rest =>
    if offset < fw.length then
      match sliceRange fw offset (min fw.length (offset + chunkSize)) with
      | none => ([], FlashOutcome.fault)
      | some chunk =>
        let r := flashLoop fw chunkSize { w with offset := p.off } p.off
          p.match_ rest
        (w.write_chunk chunk :: r.1, r.2)
    else ([], FlashOutcome.done offset verified)
  | WriteImageChunkResult.Err e :: _ =>
    if offset < fw.length then
      match sliceRange fw offset (min fw.length (offset + chunkSize)) with
      | none => ([], FlashOutcome.fault)
      | some chunk =>
        ([w.write_chunk chunk], FlashOutcome.deviceError e.rc e.rsn)
    else ([], FlashOutcome.done offset verified)

/-- The usize modulus: arithmetic on Rust `usize` (64-bit targets) wraps
modulo 2^64 in release builds. -/
def USIZE : Nat := 18446744073709551616

/-- The image upload loop of main.rs (lines 268-291) with the usize
arithmetic of the source made explicit: the end index of the chunk slice
(main.rs line 273) is `min(firmware.len(), offset + chunk_size)` where
the sum is computed in `usize` and therefore wraps modulo 2^64. This
definition is `flashLoop` with that wrap applied to the sum — the only
place the loop adds two usize quantities; the two embeddings agree
whenever the sum cannot overflow (`flashLoopU_eq_flashLoop`). -/
def flashLoopU (fw : List Nat) (chunkSize : Nat) (w : ImageWriter)
    (offset : Nat) (verified : Option Bool) :
    List WriteImageChunkResult → List ImageWriteRequest × FlashOutcome
  | [] =>
    if offset < fw.length then
      match sliceRange fw offset
          (min fw.length ((offset + chunkSize) % USIZE)) with
      | none => ([], FlashOutcome.fault)
      | some chunk => ([w.write_chunk chunk], FlashOutcome.starved offset verified)
    else ([], FlashOutcome.done offset verified)
  | WriteImageChunkResult.Ok p :: rest =>
    if offset < fw.length then
      match sliceRange fw offset
          (min fw.length ((offset + chunkSize) % USIZE)) with
      | none => ([], FlashOutcome.fault)
      | some chunk =>
        let r := flashLoopU fw chunkSize { w with offset := p.off } p.off
          p.match_ rest
        (w.write_chunk chunk :: r.1, r.2)
    else ([], FlashOutcome.done offset verified)
  | WriteImageChunkResult.Err e :: _ =>
    if offset < fw.length then
      match sliceRange fw offset
          (min fw.length ((offset + chunkSize) % USIZE)) with
      | none => ([], FlashOutcome.fault)
      | some chunk =>
        ([w.write_chunk chunk], FlashOutcome.deviceError e.rc e.rsn)
    else ([], FlashOutcome.done offset verified)

/-- The Flash arm after reading and hashing the file (main.rs lines
261-291): `updater = ImageWriter::new(slot, firmware.len(), Some(hash),
upgrade)`, `verified = None`, `offset = 0`, then the loop. -/
def flashMain (fw : List Nat) (chunkSize : Nat) (slot : Option Nat)
    (hash : List Nat) (upgrade : Bool)
    (responses : List WriteImageChunkResult) :
    List ImageWriteRequest × FlashOutcome :=
  flashLoop fw chunkSize (ImageWriter.new slot fw.length (some hash) upgrade)
    0 none responses

/-- The chunk the loop slices at a given offset: the slice of the image
starting there, of the caller-chosen chunk size clamped to the remaining
bytes. -/
def chunkAt (fw : List Nat) (chunkSize offset : Nat) : List Nat :=
  (fw.drop offset).take (min fw.length (offset + chunkSize) - offset)

/-- `i32::to_le_bytes` as used at main.rs line 358: the four bytes of the
two's-complement representation of the value, least significant first
(2^32 = 4294967296, 2^16 = 65536, 2^24 = 16777216). -/
def i32_to_le_bytes (val : Int) : List Nat :=
  let u : Nat := (val % 4294967296).toNat
  [u % 256, u / 256 % 256, u / 65536 % 256, u / 16777216 % 256]

/-- The `Setting WriteInt` arm (main.rs lines 353-360):
`write_setting(42, name.clone(), val.to_le_bytes().to_vec())`. -/
def settingWriteIntFrame (name : String) (val : Int) :
    SmpFrame WriteSettingRequest :=
  write_setting 42 name (i32_to_le_bytes val)

/-- The value a little-endian byte list denotes: digits base 256, least
significant first (stated from the claim's words, to compare with
`i32_to_le_bytes`). -/
def leValue (bs : List Nat) : Nat :=
  bs.foldr (fun b acc => b + 256 * acc) 0

/-!
## Concrete scenario inputs
-/

/-- A 600-byte firmware image (spec §8, chunked-upload scenario). -/
def fw600 : List Nat := List.replicate 600 7

/-- A 32-byte stand-in for the sha256 image digest. -/
def hashDemo : List Nat := List.replicate 32 171

/-- Normal-path responses: the device confirms offsets 256, 512, 600. -/
def rsNormal : List WriteImageChunkResult :=
  [WriteImageChunkResult.Ok { off := 256, match_ := none },
   WriteImageChunkResult.Ok { off := 512, match_ := none },
   WriteImageChunkResult.Ok { off := 600, match_ := none }]

/-- Resumption responses: after the chunk requested at offset 256 the
device reports offset 128 (spec §8, resumed-upload scenario). -/
def rsResume : List WriteImageChunkResult :=
  [WriteImageChunkResult.Ok { off := 256, match_ := none },
   WriteImageChunkResult.Ok { off := 128, match_ := none },
   WriteImageChunkResult.Ok { off := 600, match_ := none }]

/-- A 4-byte firmware image for small concrete runs. -/
def fw4 : List Nat := [1, 2, 3, 4]

/-- Upload state for the 4-byte image: no slot, length 4, no hash. -/
def w4 : ImageWriter := ImageWriter.new none 4 none false

/-- Responses for the 4-byte image with chunk size 3: the device confirms
offsets 3 and 4. -/
def rs4 : List WriteImageChunkResult :=
  [WriteImageChunkResult.Ok { off := 3, match_ := none },
   WriteImageChunkResult.Ok { off := 4, match_ := none }]


/-- Responses where the first confirmation carries hash-match true and
the second carries no flag (for the verified-overwrite counterexample). -/
def rsOverwrite : List WriteImageChunkResult :=
  [WriteImageChunkResult.Ok { off := 256, match_ := some true },
   WriteImageChunkResult.Ok { off := 600, match_ := none }]

/-- The upload state flashMain builds for the 600-byte image. -/
def wMain600 : ImageWriter :=
  ImageWriter.new (some 1) fw600.length (some hashDemo) false

/-- A 6-byte firmware image. -/
def fw6 : List Nat := [10, 20, 30, 40, 50, 60]

/-- Upload state for the 6-byte image: no slot, length 6, no hash. -/
def w6 : ImageWriter := ImageWriter.new none 6 none false

/-- Responses for the 6-byte image with chunk size 2: the device confirms
offsets 2, 4, 6. -/
def rs6 : List WriteImageChunkResult :=
  [WriteImageChunkResult.Ok { off := 2, match_ := none },
   WriteImageChunkResult.Ok { off := 4, match_ := none },
   WriteImageChunkResult.Ok { off := 6, match_ := none }]

/-- A 2-byte firmware image, for the usize-overflow run. -/
def fw2 : List Nat := [1, 2]

/-- Upload state for the 2-byte image: no slot, length 2, no hash. -/
def w2 : ImageWriter := ImageWriter.new none 2 none false

/-- The largest usize value, a legal `--chunk-size` on the command line. -/
def usizeMax : Nat := 18446744073709551615


/-!
## Helper lemmas
-/

/-- An in-bounds slice succeeds and yields the drop/take window. -/
theorem sliceRange_eq_some (fw : List Nat) (start stop : Nat)
    (h1 : start ≤ stop) (h2 : stop ≤ fw.length) :
    sliceRange fw start stop = some ((fw.drop start).take (stop - start)) := by
  simp [sliceRange, h1, h2]

/-- While the loop guard holds, the chunk slice succeeds and yields the
clamped chunk at the current offset. -/
theorem sliceRange_chunk (fw : List Nat) (cs offset : Nat)
    (h : offset < fw.length) :
    sliceRange fw offset (min fw.length (offset + cs)) =
      some (chunkAt fw cs offset) := by
  unfold chunkAt
  exact sliceRange_eq_some _ _ _
    (le_min (Nat.le_of_lt h) (Nat.le_add_right _ _)) (min_le_left _ _)

/-- Loop exit: once the offset reaches the image length, the loop stops
with the current offset and verified flag, whatever responses remain. -/
theorem flashLoop_stop (fw : List Nat) (cs : Nat) (w : ImageWriter)
    (offset : Nat) (v : Option Bool) (rs : List WriteImageChunkResult)
    (h : ¬ offset < fw.length) :
    flashLoop fw cs w offset v rs = ([], FlashOutcome.done offset v) := by
  match rs with
  | [] => conv_lhs => rw [flashLoop]
          simp [h]
  | WriteImageChunkResult.Ok p :: rest => conv_lhs => rw [flashLoop]
                                          simp [h]
  | WriteImageChunkResult.Err e :: rest => conv_lhs => rw [flashLoop]
                                           simp [h]

/-- Loop step with no scripted response left: the request goes out and the
run is starved. -/
theorem flashLoop_starved (fw : List Nat) (cs : Nat) (w : ImageWriter)
    (offset : Nat) (v : Option Bool) (h : offset < fw.length) :
    flashLoop fw cs w offset v [] =
      ([w.write_chunk (chunkAt fw cs offset)], FlashOutcome.starved offset v) := by
  conv_lhs => rw [flashLoop]
  simp [h, sliceRange_chunk fw cs offset h]

/-- Loop step on a success response: the request at the current offset is
sent, then the loop continues from the device-reported offset with the
response's hash-match flag as the new verified value. -/
theorem flashLoop_ok (fw : List Nat) (cs : Nat) (w : ImageWriter)
    (offset : Nat) (v : Option Bool) (p : WriteImageChunkOk)
    (rest : List WriteImageChunkResult) (h : offset < fw.length) :
    flashLoop fw cs w offset v (WriteImageChunkResult.Ok p :: rest) =
      (w.write_chunk (chunkAt fw cs offset) ::
        (flashLoop fw cs { w with offset := p.off } p.off p.match_ rest).1,
       (flashLoop fw cs { w with offset := p.off } p.off p.match_ rest).2) := by
  conv_lhs => rw [flashLoop]
  simp [h, sliceRange_chunk fw cs offset h]

/-- Loop step on an error response: the request at the current offset is
sent and the loop aborts with the device error. -/
theorem flashLoop_err (fw : List Nat) (cs : Nat) (w : ImageWriter)
    (offset : Nat) (v : Option Bool) (e : ImageError)
    (rest : List WriteImageChunkResult) (h : offset < fw.length) :
    flashLoop fw cs w offset v (WriteImageChunkResult.Err e :: rest) =
      ([w.write_chunk (chunkAt fw cs offset)],
       FlashOutcome.deviceError e.rc e.rsn) := by
  conv_lhs => rw [flashLoop]
  simp [h, sliceRange_chunk fw cs offset h]

/-- The request a step sends carries the writer's current offset. -/
theorem write_chunk_off (w : ImageWriter) (chunk : List Nat) :
    (w.write_chunk chunk).off = w.offset := rfl

/-- At a non-zero writer offset, the built request omits the whole-image
metadata. -/
theorem write_chunk_meta (w : ImageWriter) (chunk : List Nat)
    (h : w.offset ≠ 0) :
    (w.write_chunk chunk).len = none ∧ (w.write_chunk chunk).sha = none ∧
      (w.write_chunk chunk).slot = none := by
  simp [ImageWriter.write_chunk, h]

/-- The first request of any run (if one is sent) carries the writer's
current offset. -/
theorem flashLoop_head_off (fw : List Nat) (cs : Nat) (w : ImageWriter)
    (offset : Nat) (v : Option Bool) (rs : List WriteImageChunkResult) :
    ((flashLoop fw cs w offset v rs).1.map ImageWriteRequest.off).get? 0 = none ∨
    ((flashLoop fw cs w offset v rs).1.map ImageWriteRequest.off).get? 0 =
      some w.offset := by
  by_cases h : offset < fw.length
  · cases rs with
    | nil => rw [flashLoop_starved fw cs w offset v h]; right; rfl
    | cons r rest =>
      cases r with
      | Ok p => rw [flashLoop_ok fw cs w offset v p rest h]; right; rfl
      | Err e => rw [flashLoop_err fw cs w offset v e rest h]; right; rfl
  · rw [flashLoop_stop fw cs w offset v rs h]; left; rfl

/-!
## Claim theorems
-/

/-- C1: the claim fails on the code. The two response shapes are NOT
structurally distinguishable for the Write and Save operations: the
error-shaped payload, a map with the single signed 32-bit field rc,
decodes as the success variant of `WriteSettingResult` and of
`SaveSettingResult`, because the untagged decode tries the field-less
`Ok {}` variant first and an empty struct accepts any map. (For
`ReadSettingResult` the claim's property does hold, and the rc map is a
well-formed error shape: `decodeSettingErr` accepts it.) -/
theorem c1_error_shape_decodes_as_success :
    decodeWriteSettingResult [("rc", CborVal.int (-1))] =
      some WriteSettingResult.Ok ∧
    decodeSaveSettingResult [("rc", CborVal.int (-1))] =
      some SaveSettingResult.Ok ∧
    decodeSettingErr [("rc", CborVal.int (-1))] = some (-1) ∧
    decodeReadSettingResult [("rc", CborVal.int (-1))] =
      some (ReadSettingResult.Err (-1)) ∧
    decodeReadSettingResult [("val", CborVal.bytes [1, 2, 3, 4])] =
      some (ReadSettingResult.Ok [1, 2, 3, 4]) := by
  decide

/-- C2: counterexample to the claim as stated. In a run where the first
chunk response carries hash-match true and the second successful response
carries no hash-match flag, `verified` does not retain its previous value
`some true`: the loop ends with `verified = none`. -/
theorem c2_counterexample_verified_not_retained :
    (flashMain fw600 256 (some 1) hashDemo false rsOverwrite).2 =
      FlashOutcome.done 600 none ∧
    decide (FlashOutcome.done 600 none =
      FlashOutcome.done 600 (some true)) = false := by
  exact ⟨by decide, by decide⟩

/-- C2 (amended): after every successful WriteChunk exchange, `verified`
is overwritten with the response's optional hash-match field: the loop
continues with `verified` equal to that field, and the previous value of
`verified` has no influence on the rest of the run, so a success response
without the flag leaves `verified` unset rather than retaining the old
value. -/
theorem c2_verified_is_latest_match (fw : List Nat) (cs : Nat)
    (w : ImageWriter) (offset : Nat) (v1 v2 : Option Bool)
    (p : WriteImageChunkOk) (rest : List WriteImageChunkResult)
    (h : offset < fw.length) :
    flashLoop fw cs w offset v1 (WriteImageChunkResult.Ok p :: rest) =
      flashLoop fw cs w offset v2 (WriteImageChunkResult.Ok p :: rest) ∧
    (flashLoop fw cs w offset v1 (WriteImageChunkResult.Ok p :: rest)).2 =
      (flashLoop fw cs { w with offset := p.off } p.off p.match_ rest).2 := by
  rw [flashLoop_ok fw cs w offset v1 p rest h,
    flashLoop_ok fw cs w offset v2 p rest h]
  exact ⟨rfl, rfl⟩

/-- C2 witness: the amended theorem at a concrete input. -/
theorem c2_witness :
    (0 : Nat) < fw4.length ∧
    (flashLoop fw4 3 w4 0 (some false) rs4 =
       flashLoop fw4 3 w4 0 (some true) rs4 ∧
     (flashLoop fw4 3 w4 0 (some false) rs4).2 =
       (flashLoop fw4 3 { w4 with offset := 3 } 3 none
         [WriteImageChunkResult.Ok { off := 4, match_ := none }]).2) :=
  ⟨by decide, c2_verified_is_latest_match fw4 3 w4 0 (some false) (some true)
    { off := 3, match_ := none }
    [WriteImageChunkResult.Ok { off := 4, match_ := none }] (by decide)⟩

/-- C3: after every successful WriteChunk exchange the client adopts the
device-reported offset: whenever response i of a run is a success
reporting offset `p.off`, request i+1 of that run (if any is sent) is
built at offset `p.off` — not at the previously requested offset plus the
chunk length, and also when `p.off` is smaller than the last requested
offset. -/
theorem c3_offset_follows_device (fw : List Nat) (cs : Nat)
    (w : ImageWriter) (offset : Nat) (v : Option Bool)
    (rs : List WriteImageChunkResult) (i : Nat) (p : WriteImageChunkOk)
    (hresp : rs.get? i = some (WriteImageChunkResult.Ok p)) :
    ((flashLoop fw cs w offset v rs).1.map ImageWriteRequest.off).get?
        (i + 1) = none ∨
    ((flashLoop fw cs w offset v rs).1.map ImageWriteRequest.off).get?
        (i + 1) = some p.off := by
  induction rs generalizing w offset v i with
  | nil => simp at hresp
  | cons r rest ih =>
    by_cases h : offset < fw.length
    · cases r with
      | Ok p0 =>
        rw [flashLoop_ok fw cs w offset v p0 rest h]
        cases i with
        | zero =>
          have hp : p0 = p := by simpa using hresp
          subst hp
          simpa using
            flashLoop_head_off fw cs { w with offset := p0.off } p0.off
              p0.match_ rest
        | succ j =>
          have hj : rest.get? j = some (WriteImageChunkResult.Ok p) := hresp
          simpa using ih { w with offset := p0.off } p0.off p0.match_ j hj
      | Err e =>
        cases i with
        | zero => simp at hresp
        | succ j =>
          rw [flashLoop_err fw cs w offset v e rest h]
          left
          simp
    · rw [flashLoop_stop fw cs w offset v _ h]
      left
      rfl

/-- C3 witness: the resumption scenario. After the chunk requested at
offset 256 the device reports offset 128, and the next request is built
at offset 128 (the run requests offsets 0, 256, 128). -/
theorem c3_witness :
    rsResume.get? 1 =
      some (WriteImageChunkResult.Ok { off := 128, match_ := none }) ∧
    (((flashLoop fw600 256 wMain600 0 none rsResume).1.map
          ImageWriteRequest.off).get? 2 = none ∨
     ((flashLoop fw600 256 wMain600 0 none rsResume).1.map
          ImageWriteRequest.off).get? 2 = some 128) ∧
    ((flashLoop fw600 256 wMain600 0 none rsResume).1.map
        ImageWriteRequest.off).get? 2 = some 128 :=
  ⟨rfl,
   c3_offset_follows_device fw600 256 wMain600 0 none rsResume 1
     { off := 128, match_ := none } rfl,
   by decide⟩

/-- C4: the whole-image metadata fields (total length, image hash, slot)
are included in a WriteChunk request only while the offset is 0: every
request a run builds at a non-zero offset carries none of them. -/
theorem c4_metadata_only_at_offset_zero (fw : List Nat) (cs : Nat)
    (w : ImageWriter) (offset : Nat) (v : Option Bool)
    (rs : List WriteImageChunkResult) (req : ImageWriteRequest)
    (hmem : req ∈ (flashLoop fw cs w offset v rs).1)
    (hoff : req.off ≠ 0) :
    req.len = none ∧ req.sha = none ∧ req.slot = none := by
  induction rs generalizing w offset v with
  | nil =>
    by_cases h : offset < fw.length
    · rw [flashLoop_starved fw cs w offset v h] at hmem
      rcases List.mem_singleton.mp hmem with rfl
      exact write_chunk_meta w _ hoff
    · rw [flashLoop_stop fw cs w offset v [] h] at hmem
      simp at hmem
  | cons r rest ih =>
    by_cases h : offset < fw.length
    · cases r with
      | Ok p =>
        rw [flashLoop_ok fw cs w offset v p rest h] at hmem
        rcases List.mem_cons.mp hmem with rfl | htail
        · exact write_chunk_meta w _ hoff
        · exact ih { w with offset := p.off } p.off p.match_ htail
      | Err e =>
        rw [flashLoop_err fw cs w offset v e rest h] at hmem
        rcases List.mem_singleton.mp hmem with rfl
        exact write_chunk_meta w _ hoff
    · rw [flashLoop_stop fw cs w offset v _ h] at hmem
      simp at hmem

/-- C4 witness: in the six-byte run, the request built at offset 2
carries no metadata. -/
theorem c4_witness :
    ({ slot := none, len := none, sha := none, upgrade_only := false,
       data := [30, 40], off := 2 } : ImageWriteRequest) ∈
      (flashLoop fw6 2 w6 0 none rs6).1 ∧
    (({ slot := none, len := none, sha := none, upgrade_only := false,
        data := [30, 40], off := 2 } : ImageWriteRequest).len = none ∧
     ({ slot := none, len := none, sha := none, upgrade_only := false,
        data := [30, 40], off := 2 } : ImageWriteRequest).sha = none ∧
     ({ slot := none, len := none, sha := none, upgrade_only := false,
        data := [30, 40], off := 2 } : ImageWriteRequest).slot = none) :=
  ⟨by decide,
   c4_metadata_only_at_offset_zero fw6 2 w6 0 none rs6 _ (by decide)
     (by decide)⟩

/-- C5: every request a run sends carries as data the slice of the image
starting at the request's offset whose length is the chunk size clamped
to the remaining bytes; and in the normal-path scenario (image length
600, chunk size 256, device confirming 256, 512, 600 in turn) the run
requests offsets 0, 256, 512 and terminates at offset 600. -/
theorem c5_chunks_are_clamped_slices :
    (∀ (fw : List Nat) (cs : Nat) (w : ImageWriter) (offset : Nat)
        (v : Option Bool) (rs : List WriteImageChunkResult)
        (req : ImageWriteRequest), w.offset = offset →
        req ∈ (flashLoop fw cs w offset v rs).1 →
        req.data = chunkAt fw cs req.off ∧ req.off < fw.length) ∧
    (flashMain fw600 256 (some 1) hashDemo false rsNormal).1.map
        ImageWriteRequest.off = [0, 256, 512] ∧
    (flashMain fw600 256 (some 1) hashDemo false rsNormal).2 =
      FlashOutcome.done 600 none := by
  refine ⟨?_, by decide, by decide⟩
  intro fw cs w offset v rs
  induction rs generalizing w offset v with
  | nil =>
    intro req hw hmem
    by_cases h : offset < fw.length
    · rw [flashLoop_starved fw cs w offset v h] at hmem
      rcases List.mem_singleton.mp hmem with rfl
      exact ⟨by simp [ImageWriter.write_chunk, hw], by
        simpa [write_chunk_off, hw] using h⟩
    · rw [flashLoop_stop fw cs w offset v [] h] at hmem
      simp at hmem
  | cons r rest ih =>
    intro req hw hmem
    by_cases h : offset < fw.length
    · cases r with
      | Ok p =>
        rw [flashLoop_ok fw cs w offset v p rest h] at hmem
        rcases List.mem_cons.mp hmem with rfl | htail
        · exact ⟨by simp [ImageWriter.write_chunk, hw], by
            simpa [write_chunk_off, hw] using h⟩
        · exact ih { w with offset := p.off } p.off p.match_ req rfl htail
      | Err e =>
        rw [flashLoop_err fw cs w offset v e rest h] at hmem
        rcases List.mem_singleton.mp hmem with rfl
        exact ⟨by simp [ImageWriter.write_chunk, hw], by
          simpa [write_chunk_off, hw] using h⟩
    · rw [flashLoop_stop fw cs w offset v _ h] at hmem
      simp at hmem

/-- C5 witness: the general part of the theorem at a concrete entry of
the four-byte run: the request at offset 3 carries the one remaining
byte. -/
theorem c5_witness :
    ({ slot := none, len := none, sha := none, upgrade_only := false,
       data := [4], off := 3 } : ImageWriteRequest) ∈
      (flashLoop fw4 3 w4 0 none rs4).1 ∧
    (({ slot := none, len := none, sha := none, upgrade_only := false,
        data := [4], off := 3 } : ImageWriteRequest).data =
       chunkAt fw4 3 3 ∧ (3 : Nat) < fw4.length) :=
  ⟨by decide,
   c5_chunks_are_clamped_slices.1 fw4 3 w4 0 none rs4 _ rfl (by decide)⟩

/-- C6: when a WriteChunk exchange returns the device error shape, the
upload loop aborts at once: the outcome surfaces the device's return
code, exactly the request whose response was the error has been sent from
that point on, and the remaining scripted responses are never consumed. -/
theorem c6_device_error_aborts (fw : List Nat) (cs : Nat)
    (w : ImageWriter) (offset : Nat) (v : Option Bool) (e : ImageError)
    (rest rest2 : List WriteImageChunkResult) (h : offset < fw.length) :
    (flashLoop fw cs w offset v (WriteImageChunkResult.Err e :: rest)).2 =
      FlashOutcome.deviceError e.rc e.rsn ∧
    (flashLoop fw cs w offset v
        (WriteImageChunkResult.Err e :: rest)).1.length = 1 ∧
    flashLoop fw cs w offset v (WriteImageChunkResult.Err e :: rest) =
      flashLoop fw cs w offset v (WriteImageChunkResult.Err e :: rest2) := by
  rw [flashLoop_err fw cs w offset v e rest h,
    flashLoop_err fw cs w offset v e rest2 h]
  exact ⟨rfl, rfl, rfl⟩

/-- C6 witness: the theorem at a concrete input; the device reports
return code -5 on the first chunk. -/
theorem c6_witness :
    (0 : Nat) < fw4.length ∧
    ((flashLoop fw4 3 w4 0 none
        [WriteImageChunkResult.Err { rc := -5, rsn := none },
         WriteImageChunkResult.Ok { off := 4, match_ := none }]).2 =
       FlashOutcome.deviceError (-5) none ∧
     (flashLoop fw4 3 w4 0 none
        [WriteImageChunkResult.Err { rc := -5, rsn := none },
         WriteImageChunkResult.Ok { off := 4, match_ := none }]).1.length
       = 1 ∧
     flashLoop fw4 3 w4 0 none
        [WriteImageChunkResult.Err { rc := -5, rsn := none },
         WriteImageChunkResult.Ok { off := 4, match_ := none }] =
       flashLoop fw4 3 w4 0 none
        [WriteImageChunkResult.Err { rc := -5, rsn := none }]) :=
  ⟨by decide,
   c6_device_error_aborts fw4 3 w4 0 none { rc := -5, rsn := none }
     [WriteImageChunkResult.Ok { off := 4, match_ := none }] [] (by decide)⟩

/-- C9: for every 32-bit signed integer value, the WriteInt arm sends a
write_setting request whose value field is exactly the 4-byte
little-endian encoding of that integer: four bytes, each below 256, whose
little-endian value is the integer's two's-complement residue. -/
theorem c9_write_int_little_endian (name : String) (val : Int)
    (_h1 : -(2 ^ 31) ≤ val) (_h2 : val < 2 ^ 31) :
    (settingWriteIntFrame name val).data.name = name ∧
    (settingWriteIntFrame name val).data.val = i32_to_le_bytes val ∧
    (i32_to_le_bytes val).length = 4 ∧
    (∀ b ∈ i32_to_le_bytes val, b < 256) ∧
    leValue (i32_to_le_bytes val) = (val % 4294967296).toNat := by
  refine ⟨rfl, rfl, rfl, ?_, ?_⟩
  · intro b hb
    simp only [i32_to_le_bytes, List.mem_cons, List.not_mem_nil, or_false]
      at hb
    rcases hb with rfl | rfl | rfl | rfl <;> omega
  · have h3 : val % 4294967296 < 4294967296 :=
      Int.emod_lt_of_pos val (by norm_num)
    have h4 : 0 ≤ val % 4294967296 := Int.emod_nonneg val (by norm_num)
    simp only [i32_to_le_bytes, leValue, List.foldr]
    omega

/-- C9 witness: the theorem at the value -2, whose two's-complement
little-endian bytes are 254, 255, 255, 255. -/
theorem c9_witness :
    -(2 ^ 31) ≤ (-2 : Int) ∧ (-2 : Int) < 2 ^ 31 ∧
    leValue (i32_to_le_bytes (-2)) = ((-2 : Int) % 4294967296).toNat ∧
    i32_to_le_bytes (-2) = [254, 255, 255, 255] :=
  ⟨by decide, by decide,
   (c9_write_int_little_endian "mtu" (-2) (by decide) (by decide)).2.2.2.2,
   by decide⟩

/-- In the idealized-arithmetic loop no run ever takes the out-of-bounds
slice branch: the guard gives offset < firmware length and the clamped
end never exceeds it. -/
theorem flashLoop_no_fault (fw : List Nat) (cs : Nat)
    (w : ImageWriter) (offset : Nat) (v : Option Bool)
    (rs : List WriteImageChunkResult) :
    ((flashLoop fw cs w offset v rs).2).isFault = false := by
  induction rs generalizing w offset v with
  | nil =>
    by_cases h : offset < fw.length
    · rw [flashLoop_starved fw cs w offset v h]
      rfl
    · rw [flashLoop_stop fw cs w offset v [] h]
      rfl
  | cons r rest ih =>
    by_cases h : offset < fw.length
    · cases r with
      | Ok p =>
        rw [flashLoop_ok fw cs w offset v p rest h]
        exact ih { w with offset := p.off } p.off p.match_
      | Err e =>
        rw [flashLoop_err fw cs w offset v e rest h]
        rfl
    · rw [flashLoop_stop fw cs w offset v _ h]
      rfl

/-- Absent usize overflow — whenever the image length plus the chunk size
fits in 64 bits — the wrapping sum in the end index never fires and the
usize-faithful loop agrees with the idealized one. -/
theorem flashLoopU_eq_flashLoop (fw : List Nat) (cs : Nat)
    (hno : fw.length + cs ≤ USIZE) (w : ImageWriter) (offset : Nat)
    (v : Option Bool) (rs : List WriteImageChunkResult) :
    flashLoopU fw cs w offset v rs = flashLoop fw cs w offset v rs := by
  induction rs generalizing w offset v with
  | nil =>
    conv_lhs => rw [flashLoopU]
    conv_rhs => rw [flashLoop]
    by_cases h : offset < fw.length
    · have hmod : (offset + cs) % USIZE = offset + cs :=
        Nat.mod_eq_of_lt (by omega)
      rw [hmod]
    · simp [h]
  | cons r rest ih =>
    cases r with
    | Ok p =>
      by_cases h : offset < fw.length
      · have hmod : (offset + cs) % USIZE = offset + cs :=
          Nat.mod_eq_of_lt (by omega)
        conv_lhs => rw [flashLoopU]
        rw [flashLoop_ok fw cs w offset v p rest h]
        simp [h, hmod, sliceRange_chunk fw cs offset h,
          ih { w with offset := p.off } p.off p.match_]
      · rw [flashLoop_stop fw cs w offset v _ h]
        conv_lhs => rw [flashLoopU]
        simp [h]
    | Err e =>
      by_cases h : offset < fw.length
      · have hmod : (offset + cs) % USIZE = offset + cs :=
          Nat.mod_eq_of_lt (by omega)
        conv_lhs => rw [flashLoopU]
        rw [flashLoop_err fw cs w offset v e rest h]
        simp [h, hmod, sliceRange_chunk fw cs offset h]
      · rw [flashLoop_stop fw cs w offset v _ h]
        conv_lhs => rw [flashLoopU]
        simp [h]

/-- C10: counterexample to the claim as stated. With the legal chunk size
2^64 - 1 on the 2-byte image, after the device reports offset 1 the
source's usize sum offset + chunk_size wraps to 0, the clamped end index
becomes min(2, 0) = 0, and the slice firmware[1..0] is out of bounds: the
loop takes the fault (panic) branch, so the slicing operation does fail
for this sequence of device-reported offsets. -/
theorem c10_counterexample_usize_wrap :
    (flashLoopU fw2 usizeMax w2 0 none
        [WriteImageChunkResult.Ok { off := 1, match_ := none }]).2 =
      FlashOutcome.fault ∧
    ((flashLoopU fw2 usizeMax w2 0 none
        [WriteImageChunkResult.Ok { off := 1, match_ := none }]).2).isFault =
      true :=
  ⟨by decide, by decide⟩

/-- C10 (amended): provided the image length plus the caller-chosen chunk
size fits in 64 bits — so the usize sum offset + chunk_size cannot wrap
at any reachable slice — the chunk slice is always in bounds: whenever a
chunk is taken the loop guard guarantees offset < firmware length, the
clamped end index never exceeds the length, and no step of the upload
loop under usize arithmetic ever takes the out-of-bounds slice branch,
for every sequence of device-reported offsets. -/
theorem c10_chunk_slice_in_bounds_no_overflow (fw : List Nat) (cs : Nat)
    (w : ImageWriter) (offset : Nat) (v : Option Bool)
    (rs : List WriteImageChunkResult) (hno : fw.length + cs ≤ USIZE) :
    ((flashLoopU fw cs w offset v rs).2).isFault = false := by
  rw [flashLoopU_eq_flashLoop fw cs hno w offset v rs]
  exact flashLoop_no_fault fw cs w offset v rs

/-- C10 witness: the amended theorem at the four-byte image with chunk
size 3. -/
theorem c10_witness :
    fw4.length + 3 ≤ USIZE ∧
    ((flashLoopU fw4 3 w4 0 none rs4).2).isFault = false :=
  ⟨by decide,
   c10_chunk_slice_in_bounds_no_overflow fw4 3 w4 0 none rs4 (by decide)⟩

/-- C7: for every sequence number, `save_setting` builds a frame with
operation WriteRequest, group SettingManagement, command identifier 3, the
given sequence number, and an empty payload. -/
theorem c7_save_setting_frame (sequence : Nat) :
    (save_setting sequence).operation = OpCode.WriteRequest ∧
    (save_setting sequence).group = Group.SettingManagement ∧
    (save_setting sequence).command_id = 3 ∧
    (save_setting sequence).sequence = sequence ∧
    (save_setting sequence).data = {} :=
  ⟨rfl, rfl, rfl, rfl, rfl⟩

/-- C8: for every sequence number, name and value, `read_setting` builds a
ReadRequest frame for group SettingManagement with command identifier 0
whose payload carries exactly the name, and `write_setting` builds a
WriteRequest frame for the same group and identifier whose payload carries
exactly the name and the value bytes. -/
theorem c8_read_write_setting_frames (sequence : Nat) (name : String)
    (val : List Nat) :
    (read_setting sequence name).operation = OpCode.ReadRequest ∧
    (read_setting sequence name).group = Group.SettingManagement ∧
    (read_setting sequence name).command_id = 0 ∧
    (read_setting sequence name).sequence = sequence ∧
    (read_setting sequence name).data = { name := name } ∧
    (write_setting sequence name val).operation = OpCode.WriteRequest ∧
    (write_setting sequence name val).group = Group.SettingManagement ∧
    (write_setting sequence name val).command_id = 0 ∧
    (write_setting sequence name val).sequence = sequence ∧
    (write_setting sequence name val).data = { name := name, val := val } :=
  ⟨rfl, rfl, rfl, rfl, rfl, rfl, rfl, rfl, rfl, rfl⟩

end Smp
